import Mathlib

/-!
# Verification of MerPlayer's audio-device management layer

Shallow embedding of `src/src-tauri/src/audio_device.rs`: device
enumeration (`get_audio_devices`), exclusive-mode capability probing
(`check_exclusive_mode_support`), stream construction
(`create_optimized_output_stream`), live device switching
(`set_audio_device`), exclusive-mode toggling (`toggle_exclusive_mode`)
and the current-device query (`get_current_audio_device`).

The host audio subsystem (cpal) and the sink library (rodio) are
represented by explicit data: a `Host` carries the device list, the
default-device name and whether enumeration succeeds; each `Device`
carries its (possibly unreadable) name, its (possibly unreadable)
default output configuration, and predicates telling which stream
constructions succeed.  Mutable player state behind mutexes becomes
explicit state passing: each Tauri command takes and returns a
`PlayerState`, paired with the `Except` result the command reports,
so that mutations performed before an early `return Err(..)` are
visible in the returned state, exactly as they are through the mutexes.

`f32` volume values are never computed with, only copied between
sinks, so they are modelled as opaque `Int` payloads; likewise the
optional `current_time : Option<f32>` hint is an opaque `Option Int`
passed through to the playback collaborator.
-/

/-- cpal's `BufferSize`: either the device default or a fixed frame count. -/
inductive BufferSize where
  | default : BufferSize
  | fixed : Nat → BufferSize
deriving DecidableEq, Repr

/-- cpal's `StreamConfig` (the fields relevant to this module). -/
structure StreamConfig where
  channels : Nat
  sampleRate : Nat
  bufferSize : BufferSize
deriving DecidableEq, Repr

/-- Which kind of stream `OutputStream::try_from_device` constructs.
The cpal/rodio API used by the code only ever builds the shared
(default) stream kind; the inductive records which kind a constructed
stream has so that this fact is observable in theorems. -/
inductive StreamKind where
  | shared : StreamKind
  | hardwareExclusive : StreamKind
deriving DecidableEq, Repr

/-- A constructed rodio `OutputStream` (together with its handle). -/
structure OutputStream where
  kind : StreamKind
deriving DecidableEq, Repr

/-- A cpal output device as this module observes it:
`name?` is the result of `device.name()` (`none` = error),
`defaultConfig?` the result of `device.default_output_config()`
(`none` = error), `buildStreamOk c` tells whether
`device.build_output_stream` succeeds on stream configuration `c`, and
`tryFromDeviceOk` whether `OutputStream::try_from_device` succeeds. -/
structure Device where
  name? : Option String
  defaultConfig? : Option StreamConfig
  buildStreamOk : StreamConfig → Bool
  tryFromDeviceOk : Bool

/-- The cpal host: whether `host.output_devices()` succeeds, the device
list it yields, and `host.default_output_device().and_then(|d| d.name().ok())`. -/
structure Host where
  outputDevicesOk : Bool
  devices : List Device
  defaultName? : Option String

/-- A rodio `Sink` as observed by this module: `id` is its identity
(so that replacement of the sink object, as opposed to in-place
mutation, is observable), `paused` the `is_paused()` flag, `volume`
the opaque volume payload, `stopped` whether `stop()` was called. -/
structure Sink where
  id : Nat
  paused : Bool
  volume : Int
  stopped : Bool
deriving DecidableEq, Repr

/-- The mutex-guarded `AppState.player` fields used by this module. -/
structure PlayerState where
  sink : Sink
  current_device_name : String
  current_path : Option String
  exclusive_mode : Bool
deriving DecidableEq, Repr

/-- The environment of a command invocation: the cpal host, whether
`Sink::try_new` succeeds, the identity the freshly constructed sink
gets, and whether the external playback collaborator's reload succeeds
for a given path and time hint. -/
structure Env where
  host : Host
  sinkOk : Bool
  freshSinkId : Nat
  reloadOk : String → Option Int → Bool

/-- The device descriptor returned to the UI (`AudioDeviceInfo`). -/
structure AudioDeviceInfo where
  name : String
  is_default : Bool
  supports_exclusive_mode : Bool
  is_exclusive_mode : Bool
  audio_mode_status : String
deriving DecidableEq, Repr

/-- `check_exclusive_mode_support`: read the device's default output
configuration (on failure report `false`), override its buffer size to
`Fixed(256)`, and report whether building an output stream on that
configuration (with a no-op data callback and a silent error callback)
succeeds; the probe stream is dropped immediately. -/
def check_exclusive_mode_support (device : Device) : Bool :=
  match device.defaultConfig? with
  | none => false
  | some config =>
    let stream_config : StreamConfig := { config with bufferSize := .fixed 256 }
    device.buildStreamOk stream_config

/-- The loop body of `get_audio_devices`: a device with a readable
name yields a descriptor whose `is_default` compares the name against
the host default's name; a device with an unreadable name is skipped. -/
def device_info_entry (defaultName? : Option String) (device : Device) :
    Option AudioDeviceInfo :=
  match device.name? with
  | some name =>
    some { name := name
           is_default := defaultName? == some name
           supports_exclusive_mode := check_exclusive_mode_support device
           is_exclusive_mode := false
           audio_mode_status := "standard" }
  | none => none

/-- `get_audio_devices`: enumerate the host's output devices (failing
if the host cannot list them), skip devices whose name is unreadable,
and for each readable one emit a descriptor. -/
def get_audio_devices (host : Host) : Except String (List AudioDeviceInfo) :=
  if host.outputDevicesOk then
    Except.ok (host.devices.filterMap (device_info_entry host.defaultName?))
  else
    Except.error "Failed to get output devices"

/-- `.find(|d| d.name().map_or(false, |name| name == device_name))` on
the host's output-device list. -/
def find_device (host : Host) (device_name : String) : Option Device :=
  host.devices.find? (fun d => d.name? == some device_name)

/-- `create_optimized_output_stream`: read the device's default output
configuration (failing otherwise), probe exclusive-mode support,
compute the mode-status label — `"optimized"` whenever the caller
requested exclusive mode, whether or not the probe succeeded,
`"standard"` otherwise — and build the ordinary shared rodio output
stream via `OutputStream::try_from_device` (failing if that fails). -/
def create_optimized_output_stream (device : Device) (exclusive_mode : Bool) :
    Except String (OutputStream × String) :=
  match device.defaultConfig? with
  | none => Except.error "Failed to get default output config"
  | some _config =>
    let supports_exclusive := check_exclusive_mode_support device
    let mode_status :=
      if exclusive_mode && supports_exclusive then "optimized"
      else if exclusive_mode && !supports_exclusive then "optimized"
      else "standard"
    if device.tryFromDeviceOk then
      Except.ok ({ kind := .shared }, mode_status)
    else
      Except.error "Failed to create output stream"

/-- Modelled from the spec: the external playback collaborator
`reload_and_play(path, at_time)` (the repository's
`playback::play_track`, which is not among the provided sources).  It
reloads the given track into the current sink and resumes it at the
given position: on success it records the path as the current one and
clears the sink's stopped flag, preserving the sink's identity, volume
and paused state; on failure it reports the error and leaves the
player state unchanged.  It never replaces the sink object and never
touches `current_device_name` or `exclusive_mode`. -/
def play_track (env : Env) (st : PlayerState) (path : String)
    (current_time : Option Int) : PlayerState × Except String Unit :=
  if env.reloadOk path current_time then
    ({ st with current_path := some path
               sink := { st.sink with stopped := false } }, Except.ok ())
  else
    (st, Except.error "Failed to reload track")

/-- `set_audio_device`: resolve the target device by name, create the
new stream (leaking it), create the new sink, snapshot play/volume from
the old sink and stop it, install the new sink, restore volume and
play/pause, record the new device name, and reload the current track if
one is loaded.  The returned state reflects every mutation performed
before an early error return. -/
def set_audio_device (env : Env) (st : PlayerState) (device_name : String)
    (current_time : Option Int) : PlayerState × Except String Unit :=
  if env.host.outputDevicesOk then
    match find_device env.host device_name with
    | none => (st, Except.error ("Audio device not found: " ++ device_name))
    | some device =>
      let exclusive_mode := st.exclusive_mode
      match create_optimized_output_stream device exclusive_mode with
      | Except.error e => (st, Except.error e)
      | Except.ok (_stream, _mode_status) =>
        if env.sinkOk then
          let new_sink : Sink :=
            { id := env.freshSinkId, paused := false, volume := 1, stopped := false }
          let is_playing := ! st.sink.paused
          let volume := st.sink.volume
          let current_path := st.current_path
          let restored_sink : Sink :=
            { new_sink with volume := volume, paused := ! is_playing }
          let st1 : PlayerState :=
            { st with sink := restored_sink, current_device_name := device_name }
          match current_path with
          | none => (st1, Except.ok ())
          | some path => play_track env st1 path current_time
        else
          (st, Except.error "Failed to create new sink")
  else
    (st, Except.error "Failed to get output devices")

/-- `toggle_exclusive_mode`: return immediately if the stored
preference already equals `enabled`; otherwise store the new
preference, and if a track is loaded, rebuild the stream and sink on
the current device under the new preference, migrate volume and
play/pause, and reload the track. -/
def toggle_exclusive_mode (env : Env) (st : PlayerState) (enabled : Bool)
    (current_time : Option Int) : PlayerState × Except String Unit :=
  if st.exclusive_mode == enabled then
    (st, Except.ok ())
  else
    let st := { st with exclusive_mode := enabled }
    match st.current_path with
    | none => (st, Except.ok ())
    | some path =>
      let current_device := st.current_device_name
      if env.host.outputDevicesOk then
        match find_device env.host current_device with
        | none => (st, Except.error ("Audio device not found: " ++ current_device))
        | some device =>
          match create_optimized_output_stream device enabled with
          | Except.error e => (st, Except.error e)
          | Except.ok (_stream, _mode_status) =>
            if env.sinkOk then
              let new_sink : Sink :=
                { id := env.freshSinkId, paused := false, volume := 1, stopped := false }
              let is_playing := ! st.sink.paused
              let volume := st.sink.volume
              let restored_sink : Sink :=
                { new_sink with volume := volume, paused := ! is_playing }
              let st1 : PlayerState := { st with sink := restored_sink }
              play_track env st1 path current_time
            else
              (st, Except.error "Failed to create new sink")
      else
        (st, Except.error "Failed to get output devices")

/-- `get_exclusive_mode`: read the stored preference. -/
def get_exclusive_mode (st : PlayerState) : Except String Bool :=
  Except.ok st.exclusive_mode

/-- `get_current_audio_device`: re-resolve the stored current device
name against the live host list (failing if it is absent), recompute
`is_default` and the probe, and derive the mode-status label from the
stored preference. -/
def get_current_audio_device (env : Env) (st : PlayerState) :
    Except String AudioDeviceInfo :=
  let current_device_name := st.current_device_name
  let is_default := env.host.defaultName? == some current_device_name
  if env.host.outputDevicesOk then
    match find_device env.host current_device_name with
    | none =>
      Except.error ("Current audio device not found: " ++ current_device_name)
    | some current_device =>
      let supports_exclusive_mode := check_exclusive_mode_support current_device
      let is_exclusive_mode := st.exclusive_mode
      let audio_mode_status :=
        if is_exclusive_mode then "optimized" else "standard"
      Except.ok { name := current_device_name
                  is_default := is_default
                  supports_exclusive_mode := supports_exclusive_mode
                  is_exclusive_mode := is_exclusive_mode
                  audio_mode_status := audio_mode_status }
  else
    Except.error "Failed to get output devices"

/-! ## Concrete fixtures used by witnesses and counterexamples -/

/-- A plain stereo default configuration. -/
def cfg0 : StreamConfig := { channels := 2, sampleRate := 44100, bufferSize := .default }

/-- A fully working device named "Speakers". -/
def devSpeakers : Device :=
  { name? := some "Speakers", defaultConfig? := some cfg0
    buildStreamOk := fun _ => true, tryFromDeviceOk := true }

/-- A working device named "Headphones" whose 256-frame probe fails. -/
def devHeadphones : Device :=
  { name? := some "Headphones", defaultConfig? := some cfg0
    buildStreamOk := fun _ => false, tryFromDeviceOk := true }

/-- A second device that also reports the name "Speakers". -/
def devSpeakers2 : Device :=
  { name? := some "Speakers", defaultConfig? := none
    buildStreamOk := fun _ => false, tryFromDeviceOk := true }

/-- A device named "NoConfig" whose default output configuration is
unreadable, so stream creation on it fails. -/
def devNoConfig : Device :=
  { name? := some "NoConfig", defaultConfig? := none
    buildStreamOk := fun _ => false, tryFromDeviceOk := false }

/-- A host with three distinctly named devices, default "Speakers". -/
def host0 : Host :=
  { outputDevicesOk := true, devices := [devSpeakers, devHeadphones, devNoConfig]
    defaultName? := some "Speakers" }

/-- A host whose list contains two devices both named "Speakers". -/
def hostDup : Host :=
  { outputDevicesOk := true, devices := [devSpeakers, devSpeakers2]
    defaultName? := some "Speakers" }

/-- A player state playing "song.mp3" on "Speakers" at volume 5. -/
def st0 : PlayerState :=
  { sink := { id := 0, paused := false, volume := 5, stopped := false }
    current_device_name := "Speakers", current_path := some "song.mp3"
    exclusive_mode := false }

/-- An environment where everything succeeds. -/
def env0 : Env :=
  { host := host0, sinkOk := true, freshSinkId := 1, reloadOk := fun _ _ => true }

/-- An environment where `Sink::try_new` fails. -/
def envNoSink : Env :=
  { host := host0, sinkOk := false, freshSinkId := 1, reloadOk := fun _ _ => true }

/-- An environment where the playback collaborator's reload fails. -/
def envNoReload : Env :=
  { host := host0, sinkOk := true, freshSinkId := 1, reloadOk := fun _ _ => false }

/-! ## Helper lemmas -/

/-- The playback collaborator never touches the exclusive-mode flag. -/
theorem play_track_exclusive_mode (env : Env) (st : PlayerState) (path : String)
    (t : Option Int) : (play_track env st path t).1.exclusive_mode = st.exclusive_mode := by
  unfold play_track; split <;> rfl

/-- The playback collaborator never replaces the sink object. -/
theorem play_track_sink_id (env : Env) (st : PlayerState) (path : String)
    (t : Option Int) : (play_track env st path t).1.sink.id = st.sink.id := by
  unfold play_track; split <;> rfl

/-- The playback collaborator never touches the device name. -/
theorem play_track_device_name (env : Env) (st : PlayerState) (path : String)
    (t : Option Int) :
    (play_track env st path t).1.current_device_name = st.current_device_name := by
  unfold play_track; split <;> rfl

/-- The playback collaborator preserves the sink's volume. -/
theorem play_track_volume (env : Env) (st : PlayerState) (path : String)
    (t : Option Int) : (play_track env st path t).1.sink.volume = st.sink.volume := by
  unfold play_track; split <;> rfl

/-- The playback collaborator preserves the sink's paused flag. -/
theorem play_track_paused (env : Env) (st : PlayerState) (path : String)
    (t : Option Int) : (play_track env st path t).1.sink.paused = st.sink.paused := by
  unfold play_track; split <;> rfl

/-! ## Claim theorems -/

/-- C8: `toggle_exclusive_mode(enabled, _)` called when `enabled`
already equals the stored preference returns success immediately and
leaves the whole player state — sink, `current_device_name`,
`current_path` and `exclusive_mode` — unchanged (in particular no
stream or sink is reconstructed). -/
theorem toggle_exclusive_mode_noop (env : Env) (st : PlayerState) (enabled : Bool)
    (t : Option Int) (h : st.exclusive_mode = enabled) :
    toggle_exclusive_mode env st enabled t = (st, Except.ok ()) := by
  simp [toggle_exclusive_mode, h]

/-- Witness for C8 at a concrete state whose stored preference already
equals the requested value. -/
theorem toggle_exclusive_mode_noop_witness :
    st0.exclusive_mode = false ∧
    toggle_exclusive_mode env0 st0 false none = (st0, Except.ok ()) :=
  ⟨rfl, toggle_exclusive_mode_noop env0 st0 false none rfl⟩

/-- C9: when `enabled` differs from the stored preference,
`toggle_exclusive_mode` stores `enabled` into the exclusive-mode flag
before any fallible step, and no later failure restores it: whatever
the call returns, the resulting state's `exclusive_mode` equals
`enabled`. -/
theorem toggle_exclusive_mode_sets_flag (env : Env) (st : PlayerState)
    (enabled : Bool) (t : Option Int) (h : st.exclusive_mode ≠ enabled) :
    (toggle_exclusive_mode env st enabled t).1.exclusive_mode = enabled := by
  unfold toggle_exclusive_mode
  have hb : (st.exclusive_mode == enabled) = false := by
    simpa using h
  simp only [hb, Bool.false_eq_true, if_false]
  split
  · rfl
  · split
    · split
      · rfl
      · split
        · rfl
        · split
          · rw [play_track_exclusive_mode]
          · rfl
    · rfl

/-- Witness for C9: toggling to `true` from a state storing `false`,
in an environment where the subsequent reload fails, still leaves the
flag set to `true`. -/
theorem toggle_exclusive_mode_sets_flag_witness :
    st0.exclusive_mode ≠ true ∧
    (toggle_exclusive_mode envNoReload st0 true none).1.exclusive_mode = true :=
  ⟨by decide, toggle_exclusive_mode_sets_flag envNoReload st0 true none (by decide)⟩

/-- C10: whenever the stored `current_device_name` matches no device in
the host's output-device list, `get_current_audio_device` returns an
error rather than a descriptor. -/
theorem get_current_audio_device_missing (env : Env) (st : PlayerState)
    (h : find_device env.host st.current_device_name = none) :
    ∃ e, get_current_audio_device env st = Except.error e := by
  unfold get_current_audio_device
  split
  · simp only [h]
    exact ⟨_, rfl⟩
  · exact ⟨_, rfl⟩

/-- Witness for C10 at a state whose current device name "Gone" is
absent from the host list. -/
theorem get_current_audio_device_missing_witness :
    find_device env0.host "Gone" = none ∧
    ∃ e, get_current_audio_device env0
      { st0 with current_device_name := "Gone" } = Except.error e :=
  ⟨rfl, get_current_audio_device_missing env0
    { st0 with current_device_name := "Gone" } rfl⟩

/-- C6: the probe returns `false` whenever the device's default output
configuration cannot be read; otherwise it returns exactly the success
of building a stream on that configuration with its buffer size
overridden to a fixed 256 frames (the probe stream being discarded
immediately on success). -/
theorem check_exclusive_mode_support_spec (device : Device) :
    (device.defaultConfig? = none → check_exclusive_mode_support device = false) ∧
    (∀ config, device.defaultConfig? = some config →
      check_exclusive_mode_support device =
        device.buildStreamOk { config with bufferSize := BufferSize.fixed 256 }) := by
  constructor
  · intro h
    simp [check_exclusive_mode_support, h]
  · intro config h
    simp [check_exclusive_mode_support, h]

/-- Witness for C6: a device with unreadable configuration probes
`false`; a readable device probes exactly its 256-frame build result. -/
theorem check_exclusive_mode_support_spec_witness :
    (devNoConfig.defaultConfig? = none ∧
      check_exclusive_mode_support devNoConfig = false) ∧
    (devSpeakers.defaultConfig? = some cfg0 ∧
      check_exclusive_mode_support devSpeakers =
        devSpeakers.buildStreamOk { cfg0 with bufferSize := BufferSize.fixed 256 }) :=
  ⟨⟨rfl, (check_exclusive_mode_support_spec devNoConfig).1 rfl⟩,
   ⟨rfl, (check_exclusive_mode_support_spec devSpeakers).2 cfg0 rfl⟩⟩

/-- C3: whenever `create_optimized_output_stream` succeeds, the
returned mode-status label is `"optimized"` exactly when exclusive mode
was requested — independently of the probe's outcome — and the
constructed stream is the shared/default stream kind. -/
theorem create_optimized_output_stream_spec (device : Device)
    (exclusive_mode : Bool) (stream : OutputStream) (mode_status : String)
    (h : create_optimized_output_stream device exclusive_mode =
      Except.ok (stream, mode_status)) :
    (mode_status = "optimized" ↔ exclusive_mode = true) ∧
    stream.kind = StreamKind.shared := by
  unfold create_optimized_output_stream at h
  rcases hc : device.defaultConfig? with _ | config <;> rw [hc] at h
  · exact absurd h (by simp)
  · by_cases ht : device.tryFromDeviceOk
    · simp only [ht, if_true] at h
      obtain ⟨hstream, hstatus⟩ := Prod.mk.injEq .. ▸ Except.ok.injEq .. ▸ h
      subst hstream hstatus
      cases exclusive_mode <;> cases hs : check_exclusive_mode_support device <;>
        simp [hs]
    · simp [ht] at h

/-- Witness for C3: an exclusive-mode request on a device whose probe
fails still yields the label "optimized" and a shared stream. -/
theorem create_optimized_output_stream_spec_witness :
    create_optimized_output_stream devHeadphones true =
      Except.ok ({ kind := StreamKind.shared }, "optimized") ∧
    ("optimized" = "optimized" ↔ true = true) ∧
    OutputStream.kind { kind := StreamKind.shared } = StreamKind.shared :=
  ⟨rfl, create_optimized_output_stream_spec devHeadphones true
    { kind := StreamKind.shared } "optimized" rfl⟩

/-- C4: when device resolution fails, `set_audio_device` returns the
device-not-found error, and when resolution succeeds but stream
creation fails, it returns that stream-creation error; in both cases
the whole player state — sink, `current_device_name`, `current_path`
and `exclusive_mode` — is returned unchanged. -/
theorem set_audio_device_failfast (env : Env) (st : PlayerState)
    (device_name : String) (t : Option Int)
    (he : env.host.outputDevicesOk = true) :
    (find_device env.host device_name = none →
      set_audio_device env st device_name t =
        (st, Except.error ("Audio device not found: " ++ device_name))) ∧
    (∀ d e, find_device env.host device_name = some d →
      create_optimized_output_stream d st.exclusive_mode = Except.error e →
      set_audio_device env st device_name t = (st, Except.error e)) := by
  constructor
  · intro hf
    simp [set_audio_device, he, hf]
  · intro d e hf hc
    simp [set_audio_device, he, hf, hc]

/-- Witness for C4: switching to the absent device "Gone" fails with
`DeviceNotFound` leaving the state unchanged, and switching to
"NoConfig" (whose configuration is unreadable) fails with the
stream-creation error leaving the state unchanged. -/
theorem set_audio_device_failfast_witness :
    set_audio_device env0 st0 "Gone" none =
      (st0, Except.error ("Audio device not found: " ++ "Gone")) ∧
    set_audio_device env0 st0 "NoConfig" none =
      (st0, Except.error "Failed to get default output config") :=
  ⟨(set_audio_device_failfast env0 st0 "Gone" none rfl).1 rfl,
   (set_audio_device_failfast env0 st0 "NoConfig" none rfl).2
     devNoConfig "Failed to get default output config" rfl rfl⟩

/-- C1 counterexample: in a state playing on "Speakers", switching to
"Headphones" in an environment where stream creation succeeds but sink
construction fails aborts with the sink-creation error — but contrary
to the claim, the old sink is NOT stopped at that point: the returned
state is exactly the pre-call state, with `sink.stopped = false`.  (In
the source, `Sink::try_new` at line 81 runs before `old_sink.stop()`
at line 91, so its failure returns before the old sink is touched.) -/
theorem set_audio_device_sink_failure_counterexample :
    (set_audio_device envNoSink st0 "Headphones" none).2 =
      Except.error "Failed to create new sink" ∧
    (set_audio_device envNoSink st0 "Headphones" none).1.sink.stopped = false ∧
    (set_audio_device envNoSink st0 "Headphones" none).1 = st0 :=
  ⟨rfl, rfl, rfl⟩

/-- C1 (amended): if, after successful device resolution and stream
creation, the new sink's construction fails, `set_audio_device` aborts
with the sink-creation error and the old sink is NOT yet stopped: the
entire player state, the sink included, is unchanged. -/
theorem set_audio_device_sink_failure (env : Env) (st : PlayerState)
    (device_name : String) (t : Option Int) (d : Device)
    (p : OutputStream × String)
    (he : env.host.outputDevicesOk = true)
    (hf : find_device env.host device_name = some d)
    (hc : create_optimized_output_stream d st.exclusive_mode = Except.ok p)
    (hs : env.sinkOk = false) :
    set_audio_device env st device_name t =
      (st, Except.error "Failed to create new sink") := by
  obtain ⟨stream, status⟩ := p
  simp [set_audio_device, he, hf, hc, hs]

/-- Witness for the amended C1 at the concrete inputs of the
counterexample. -/
theorem set_audio_device_sink_failure_witness :
    envNoSink.host.outputDevicesOk = true ∧
    find_device envNoSink.host "Headphones" = some devHeadphones ∧
    create_optimized_output_stream devHeadphones st0.exclusive_mode =
      Except.ok ({ kind := StreamKind.shared }, "standard") ∧
    envNoSink.sinkOk = false ∧
    set_audio_device envNoSink st0 "Headphones" none =
      (st0, Except.error "Failed to create new sink") :=
  ⟨rfl, rfl, rfl, rfl,
   set_audio_device_sink_failure envNoSink st0 "Headphones" none devHeadphones
     ({ kind := StreamKind.shared }, "standard") rfl rfl rfl rfl⟩

/-- C7: once the new sink has been installed (resolution, stream
creation and sink creation all succeeded), a failure of the
track-reload step is surfaced as the call's error but does not roll
back the switch: the resulting state's sink is the newly constructed
one and `current_device_name` is the target device. -/
theorem set_audio_device_commit (env : Env) (st : PlayerState)
    (device_name : String) (t : Option Int) (path : String) (d : Device)
    (p : OutputStream × String)
    (he : env.host.outputDevicesOk = true)
    (hf : find_device env.host device_name = some d)
    (hc : create_optimized_output_stream d st.exclusive_mode = Except.ok p)
    (hs : env.sinkOk = true)
    (hp : st.current_path = some path)
    (hr : env.reloadOk path t = false) :
    (set_audio_device env st device_name t).2 =
      Except.error "Failed to reload track" ∧
    (set_audio_device env st device_name t).1.sink.id = env.freshSinkId ∧
    (set_audio_device env st device_name t).1.current_device_name =
      device_name := by
  obtain ⟨stream, status⟩ := p
  simp [set_audio_device, he, hf, hc, hs, hp, play_track, hr]

/-- Witness for C7: a failed reload after an otherwise successful
switch to "Headphones" surfaces the reload error while the new sink
(id 1) and the new device name stay installed. -/
theorem set_audio_device_commit_witness :
    st0.current_path = some "song.mp3" ∧
    envNoReload.reloadOk "song.mp3" none = false ∧
    (set_audio_device envNoReload st0 "Headphones" none).2 =
      Except.error "Failed to reload track" ∧
    (set_audio_device envNoReload st0 "Headphones" none).1.sink.id =
      envNoReload.freshSinkId ∧
    (set_audio_device envNoReload st0 "Headphones" none).1.current_device_name =
      "Headphones" :=
  ⟨rfl, rfl,
   set_audio_device_commit envNoReload st0 "Headphones" none "song.mp3"
     devHeadphones ({ kind := StreamKind.shared }, "standard")
     rfl rfl rfl rfl rfl rfl⟩

/-- C5: when `set_audio_device` succeeds, the current-device query on
the resulting state returns a descriptor whose name is the target
device, and the sink's volume and play/pause state after the call equal
those observed before the call. -/
theorem set_audio_device_success (env : Env) (st : PlayerState)
    (device_name : String) (t : Option Int)
    (h : (set_audio_device env st device_name t).2 = Except.ok ()) :
    (∃ info, get_current_audio_device env (set_audio_device env st device_name t).1 =
        Except.ok info ∧ info.name = device_name) ∧
    (set_audio_device env st device_name t).1.sink.volume = st.sink.volume ∧
    (set_audio_device env st device_name t).1.sink.paused = st.sink.paused := by
  rcases he : env.host.outputDevicesOk with _ | _
  · simp [set_audio_device, he] at h
  rcases hf : find_device env.host device_name with _ | d
  · simp [set_audio_device, he, hf] at h
  rcases hc : create_optimized_output_stream d st.exclusive_mode with e | ⟨stream, status⟩
  · simp [set_audio_device, he, hf, hc] at h
  rcases hs : env.sinkOk with _ | _
  · simp [set_audio_device, he, hf, hc, hs] at h
  rcases hp : st.current_path with _ | path
  · have hres : set_audio_device env st device_name t =
        ({ st with
            sink := { id := env.freshSinkId, paused := st.sink.paused,
                      volume := st.sink.volume, stopped := false },
            current_device_name := device_name }, Except.ok ()) := by
      simp [set_audio_device, he, hf, hc, hs, hp]
    rw [hres]
    exact ⟨⟨{ name := device_name
              is_default := env.host.defaultName? == some device_name
              supports_exclusive_mode := check_exclusive_mode_support d
              is_exclusive_mode := st.exclusive_mode
              audio_mode_status :=
                if st.exclusive_mode then "optimized" else "standard" },
            by simp [get_current_audio_device, he, hf], rfl⟩, rfl, rfl⟩
  · rcases hr : env.reloadOk path t with _ | _
    · simp [set_audio_device, he, hf, hc, hs, hp, play_track, hr] at h
    · have hres : set_audio_device env st device_name t =
          ({ st with
              sink := { id := env.freshSinkId, paused := st.sink.paused,
                        volume := st.sink.volume, stopped := false },
              current_device_name := device_name,
              current_path := some path }, Except.ok ()) := by
        simp [set_audio_device, he, hf, hc, hs, hp, play_track, hr]
      rw [hres]
      exact ⟨⟨{ name := device_name
                is_default := env.host.defaultName? == some device_name
                supports_exclusive_mode := check_exclusive_mode_support d
                is_exclusive_mode := st.exclusive_mode
                audio_mode_status :=
                  if st.exclusive_mode then "optimized" else "standard" },
              by simp [get_current_audio_device, he, hf], rfl⟩, rfl, rfl⟩

/-- Witness for C5: a successful switch of the playing state `st0` to
"Headphones". -/
theorem set_audio_device_success_witness :
    (set_audio_device env0 st0 "Headphones" none).2 = Except.ok () ∧
    ((∃ info, get_current_audio_device env0
        (set_audio_device env0 st0 "Headphones" none).1 =
          Except.ok info ∧ info.name = "Headphones") ∧
      (set_audio_device env0 st0 "Headphones" none).1.sink.volume =
        st0.sink.volume ∧
      (set_audio_device env0 st0 "Headphones" none).1.sink.paused =
        st0.sink.paused) :=
  ⟨rfl, set_audio_device_success env0 st0 "Headphones" none rfl⟩

/-- The names of the returned descriptors are exactly the readable
device names, in order. -/
theorem map_name_device_info_entry (defaultName? : Option String) :
    ∀ ds : List Device,
      (ds.filterMap (device_info_entry defaultName?)).map AudioDeviceInfo.name =
        ds.filterMap Device.name? := by
  intro ds
  induction ds with
  | nil => rfl
  | cons d ds ih =>
    cases hd : d.name? <;> simp [device_info_entry, hd, ih]

/-- Each returned descriptor's `is_default` field compares the host
default's name with that descriptor's own name. -/
theorem is_default_device_info_entry (defaultName? : Option String)
    (d : Device) (info : AudioDeviceInfo)
    (h : device_info_entry defaultName? d = some info) :
    info.is_default = (defaultName? == some info.name) := by
  unfold device_info_entry at h
  cases hd : d.name? <;> rw [hd] at h
  · exact absurd h (by simp)
  · injection h with h'
    subst h'
    rfl

/-- In a list of descriptors with pairwise-distinct names in which
`is_default` marks exactly the descriptors named like the default, at
most one descriptor is marked default. -/
theorem filter_is_default_length_le_one (defaultName? : Option String) :
    ∀ l : List AudioDeviceInfo,
      (l.map AudioDeviceInfo.name).Nodup →
      (∀ i ∈ l, i.is_default = (defaultName? == some i.name)) →
      (l.filter AudioDeviceInfo.is_default).length ≤ 1 := by
  intro l
  induction l with
  | nil => intro _ _; simp
  | cons a l ih =>
    intro hnd hch
    rw [List.map_cons, List.nodup_cons] at hnd
    obtain ⟨hna, hnd'⟩ := hnd
    have hcha := hch a (List.mem_cons_self a l)
    by_cases hda : a.is_default
    · have hdef : defaultName? = some a.name := by
        rw [hcha] at hda
        exact beq_iff_eq.mp hda
      have hnil : l.filter AudioDeviceInfo.is_default = [] := by
        apply List.filter_eq_nil_iff.mpr
        intro b hb
        rw [hch b (List.mem_cons_of_mem a hb), hdef]
        simp only [beq_iff_eq, Option.some.injEq]
        intro heq
        exact hna (heq ▸ List.mem_map_of_mem AudioDeviceInfo.name hb)
      rw [List.filter_cons_of_pos hda, hnil]
      simp
    · rw [List.filter_cons_of_neg hda]
      exact ih hnd' (fun i hi => hch i (List.mem_cons_of_mem a hi))

/-- C2 counterexample: a host whose device list reports the name
"Speakers" twice (the code neither deduplicates nor disambiguates)
makes `get_audio_devices` return two descriptors with the same name,
both marked `is_default = true`. -/
theorem get_audio_devices_dup_counterexample :
    (get_audio_devices hostDup).toOption.map
      (fun l => l.map AudioDeviceInfo.name) = some ["Speakers", "Speakers"] ∧
    (get_audio_devices hostDup).toOption.map
      (fun l => (l.filter AudioDeviceInfo.is_default).length) = some 2 :=
  ⟨rfl, rfl⟩

/-- C2 (amended): for every host device list whose readable device
names are pairwise distinct, the sequence returned by
`get_audio_devices` contains no two descriptors with the same name,
and the number of descriptors with `is_default = true` is zero or
one. -/
theorem get_audio_devices_unique (host : Host)
    (hnd : (host.devices.filterMap Device.name?).Nodup) :
    ∀ l, get_audio_devices host = Except.ok l →
      (l.map AudioDeviceInfo.name).Nodup ∧
      (l.filter AudioDeviceInfo.is_default).length ≤ 1 := by
  intro l hl
  unfold get_audio_devices at hl
  split at hl
  · injection hl with hl'
    subst hl'
    constructor
    · rw [map_name_device_info_entry]
      exact hnd
    · apply filter_is_default_length_le_one host.defaultName?
      · rw [map_name_device_info_entry]
        exact hnd
      · intro i hi
        obtain ⟨d, _, hde⟩ := List.mem_filterMap.mp hi
        exact is_default_device_info_entry _ _ _ hde
  · exact absurd hl (by simp)

/-- Witness for the amended C2 at the three-device host `host0`. -/
theorem get_audio_devices_unique_witness :
    (host0.devices.filterMap Device.name?).Nodup ∧
    get_audio_devices host0 = Except.ok
      [{ name := "Speakers", is_default := true
         supports_exclusive_mode := true, is_exclusive_mode := false
         audio_mode_status := "standard" },
       { name := "Headphones", is_default := false
         supports_exclusive_mode := false, is_exclusive_mode := false
         audio_mode_status := "standard" },
       { name := "NoConfig", is_default := false
         supports_exclusive_mode := false, is_exclusive_mode := false
         audio_mode_status := "standard" }] ∧
    (([{ name := "Speakers", is_default := true
         supports_exclusive_mode := true, is_exclusive_mode := false
         audio_mode_status := "standard" },
       { name := "Headphones", is_default := false
         supports_exclusive_mode := false, is_exclusive_mode := false
         audio_mode_status := "standard" },
       { name := "NoConfig", is_default := false
         supports_exclusive_mode := false, is_exclusive_mode := false
         audio_mode_status := "standard" }] :
        List AudioDeviceInfo).map AudioDeviceInfo.name).Nodup ∧
    (([{ name := "Speakers", is_default := true
         supports_exclusive_mode := true, is_exclusive_mode := false
         audio_mode_status := "standard" },
       { name := "Headphones", is_default := false
         supports_exclusive_mode := false, is_exclusive_mode := false
         audio_mode_status := "standard" },
       { name := "NoConfig", is_default := false
         supports_exclusive_mode := false, is_exclusive_mode := false
         audio_mode_status := "standard" }] :
        List AudioDeviceInfo).filter AudioDeviceInfo.is_default).length ≤ 1 :=
  ⟨by decide, rfl,
   get_audio_devices_unique host0 (by decide) _ rfl⟩
